import Mathlib

set_option maxRecDepth 16000
set_option maxHeartbeats 4000000

/-!
Verification of the safety / access-control core of the Text-to-SQL pipeline
(backend/guardrails.py, backend/agents.py, backend/tools.py, backend/auth.py,
backend/api.py).  Pure Python functions are embedded as Lean functions over
character lists; the external LLM agents and the database are modelled as
oracles (`Collaborators`), and the Agno `Workflow` runner is modelled as
sequential step execution that stops at the first step whose `StepOutput`
has `success = false` (the documented contract used by `SQLSecurityExecutor`:
"Stoppe le pipeline si rejeté").
-/

namespace RagSpec

/-! ## Character and string utilities (models of Python str methods) -/

/-- The French accented letters that occur in this repository's data.
`pyLowerChar`/`pyUpperChar`/`isWordChar` model the Unicode-aware Python
behaviour (str.lower, str.upper, regex \w) for ASCII plus exactly these
characters. -/
def frenchLowerChars : List Char :=
  ['à', 'â', 'ä', 'ç', 'é', 'è', 'ê', 'ë', 'î', 'ï', 'ô', 'ö', 'ù', 'û', 'ü', 'œ']

def frenchUpperChars : List Char :=
  ['À', 'Â', 'Ä', 'Ç', 'É', 'È', 'Ê', 'Ë', 'Î', 'Ï', 'Ô', 'Ö', 'Ù', 'Û', 'Ü', 'Œ']

def pyLowerChar (c : Char) : Char :=
  match (frenchUpperChars.zip frenchLowerChars).find? (fun p => p.1 == c) with
  | some p => p.2
  | none => c.toLower

def pyUpperChar (c : Char) : Char :=
  match (frenchLowerChars.zip frenchUpperChars).find? (fun p => p.1 == c) with
  | some p => p.2
  | none => c.toUpper

def pyLower (s : String) : String := String.mk (s.data.map pyLowerChar)

def pyUpper (s : String) : String := String.mk (s.data.map pyUpperChar)

/-- Python regex word character \w (ASCII letters, digits, underscore, plus
the French letters occurring in the pattern data). -/
def isWordChar (c : Char) : Bool :=
  c.isAlphanum || c == '_' || frenchLowerChars.contains c || frenchUpperChars.contains c

/-- Python whitespace (regex \s and str.strip), ASCII part. -/
def isPySpace (c : Char) : Bool :=
  c == ' ' || c == '\t' || c == '\n' || c == '\r' || c == '\x0b' || c == '\x0c'

def pyStripList (cs : List Char) : List Char :=
  ((cs.dropWhile isPySpace).reverse.dropWhile isPySpace).reverse

/-- Python str.strip() with no argument. -/
def pyStrip (s : String) : String := String.mk (pyStripList s.data)

/-- Substring test on character lists (Python `pat in s`). -/
def containsSub (pat : List Char) : List Char → Bool
  | [] => pat.isEmpty
  | c :: rest => pat.isPrefixOf (c :: rest) || containsSub pat rest

/-- Python `pat in s` for strings. -/
def containsSubStr (s pat : String) : Bool := containsSub pat.data s.data

/-- Python str.startswith. -/
def startsWithStr (s pre : String) : Bool := pre.data.isPrefixOf s.data

/-- Case-insensitive prefix test on character lists. -/
def isPrefixCI : List Char → List Char → Bool
  | [], _ => true
  | _ :: _, [] => false
  | k :: ks, c :: cs => (pyLowerChar c == pyLowerChar k) && isPrefixCI ks cs

/-- Case-insensitive substring test on character lists. -/
def containsCI (pat : List Char) : List Char → Bool
  | [] => isPrefixCI pat []
  | c :: rest => isPrefixCI pat (c :: rest) || containsCI pat rest

/-- Python sep.join(xs). -/
def joinSep (sep : String) : List String → String
  | [] => ""
  | [x] => x
  | x :: y :: rest => x ++ sep ++ joinSep sep (y :: rest)

def insertSorted (a : String) : List String → List String
  | [] => [a]
  | b :: rest => if a ≤ b then a :: b :: rest else b :: insertSorted a rest

/-- Python sorted() on a list of strings (code-point lexicographic order). -/
def sortStrings : List String → List String
  | [] => []
  | a :: rest => insertSorted a (sortStrings rest)

/-! ## A small regex engine

The guardrail signature tables in backend/guardrails.py are regular
expressions given as data.  This engine supports exactly the constructs
those patterns use: literals, `.`, character classes with ranges, `\b`,
`\s`, `\w`, `\d`, grouping, alternation and the `?`/`*`/`+` quantifiers,
with an IGNORECASE flag.  `reSearch` models Python `re.search` returning
whether a match exists anywhere in the text. -/

inductive ClsItem where
  | single (c : Char)
  | range (lo hi : Char)

inductive RE where
  | eps
  | chr (c : Char)
  | anyChar
  | clsW
  | clsS
  | clsD
  | cls (items : List ClsItem)
  | bound
  | cat (a b : RE)
  | alt (a b : RE)
  | star (a : RE)

def charLeB (a b : Char) : Bool := decide (a.toNat ≤ b.toNat)

def clsItemMatch (ci : Bool) (it : ClsItem) (c : Char) : Bool :=
  match it with
  | .single x => if ci then pyLowerChar x == pyLowerChar c else x == c
  | .range lo hi =>
      (charLeB lo c && charLeB c hi) ||
        (ci && ((charLeB lo (pyLowerChar c) && charLeB (pyLowerChar c) hi) ||
          (charLeB lo (pyUpperChar c) && charLeB (pyUpperChar c) hi)))

def charMatches (ci : Bool) (pc c : Char) : Bool :=
  if ci then pyLowerChar pc == pyLowerChar c else pc == c

/-- Word-boundary test: the flag says whether the previous character was a
word character, the list is the remaining input. -/
def boundaryOK (prevIsWord : Bool) : List Char → Bool
  | [] => prevIsWord
  | c :: _ => prevIsWord != isWordChar c

/-- Backtracking matcher: all ways the regex can consume a prefix of the
input, each result carrying the is-word-character flag of the last consumed
character (for `\b`) and the remaining input.  Fuel-indexed to stay
structurally recursive; `mrunFuel` below always supplies enough fuel for the
star-free-nesting patterns used in this repository. -/
def mrun (ci : Bool) : Nat → RE → Bool → List Char → List (Bool × List Char)
  | 0, _, _, _ => []
  | _ + 1, .eps, p, s => [(p, s)]
  | _ + 1, .chr _, _, [] => []
  | _ + 1, .chr pc, _, c :: cs => if charMatches ci pc c then [(isWordChar c, cs)] else []
  | _ + 1, .anyChar, _, [] => []
  | _ + 1, .anyChar, _, c :: cs => if c == '\n' then [] else [(isWordChar c, cs)]
  | _ + 1, .clsW, _, [] => []
  | _ + 1, .clsW, _, c :: cs => if isWordChar c then [(isWordChar c, cs)] else []
  | _ + 1, .clsS, _, [] => []
  | _ + 1, .clsS, _, c :: cs => if isPySpace c then [(isWordChar c, cs)] else []
  | _ + 1, .clsD, _, [] => []
  | _ + 1, .clsD, _, c :: cs => if c.isDigit then [(isWordChar c, cs)] else []
  | _ + 1, .cls _, _, [] => []
  | _ + 1, .cls items, _, c :: cs =>
      if items.any (fun it => clsItemMatch ci it c) then [(isWordChar c, cs)] else []
  | _ + 1, .bound, p, s => if boundaryOK p s then [(p, s)] else []
  | fuel + 1, .cat a b, p, s => (mrun ci fuel a p s).flatMap (fun r => mrun ci fuel b r.1 r.2)
  | fuel + 1, .alt a b, p, s => mrun ci fuel a p s ++ mrun ci fuel b p s
  | fuel + 1, .star a, p, s =>
      (p, s) :: ((mrun ci fuel a p s).filter (fun r => decide (r.2.length < s.length))).flatMap
        (fun r => mrun ci fuel (.star a) r.1 r.2)

def reSize : RE → Nat
  | .cat a b => reSize a + reSize b + 1
  | .alt a b => reSize a + reSize b + 1
  | .star a => reSize a + 1
  | _ => 1

/-- Parse the body of a character class, after the opening bracket. -/
def parseCls : List Char → List ClsItem × List Char
  | [] => ([], [])
  | ']' :: rest => ([], rest)
  | '\\' :: c :: rest => let p := parseCls rest; (.single c :: p.1, p.2)
  | a :: '-' :: ']' :: rest => ([ClsItem.single a, ClsItem.single '-'], rest)
  | a :: '-' :: b :: rest => let p := parseCls rest; (.range a b :: p.1, p.2)
  | a :: rest => let p := parseCls rest; (.single a :: p.1, p.2)

/-- Recursive-descent regex parser.  The second argument is the grammar
level: 0 = alternation, 1 = concatenation, anything else = one atom with an
optional quantifier. -/
def parseFuel : Nat → Nat → List Char → RE × List Char
  | 0, _, s => (.eps, s)
  | fuel + 1, 0, s =>
      let r1 := parseFuel fuel 1 s
      match r1.2 with
      | '|' :: rest =>
          let r2 := parseFuel fuel 0 rest
          (.alt r1.1 r2.1, r2.2)
      | _ => r1
  | fuel + 1, 1, s =>
      match s with
      | [] => (.eps, [])
      | ')' :: rest => (.eps, ')' :: rest)
      | '|' :: rest => (.eps, '|' :: rest)
      | c :: rest =>
          let r1 := parseFuel fuel 2 (c :: rest)
          let r2 := parseFuel fuel 1 r1.2
          (.cat r1.1 r2.1, r2.2)
  | fuel + 1, _, s =>
      let ar : RE × List Char :=
        match s with
        | [] => (.eps, [])
        | '(' :: rest =>
            let r := parseFuel fuel 0 rest
            match r.2 with
            | ')' :: rest2 => (r.1, rest2)
            | other => (r.1, other)
        | '[' :: rest =>
            let p := parseCls rest
            (.cls p.1, p.2)
        | '\\' :: [] => (.eps, [])
        | '\\' :: c :: rest =>
            if c == 'b' then (.bound, rest)
            else if c == 's' then (.clsS, rest)
            else if c == 'w' then (.clsW, rest)
            else if c == 'd' then (.clsD, rest)
            else (.chr c, rest)
        | '.' :: rest => (.anyChar, rest)
        | c :: rest => (.chr c, rest)
      match ar.2 with
      | '?' :: rest => (.alt ar.1 .eps, rest)
      | '*' :: rest => (.star ar.1, rest)
      | '+' :: rest => (.cat ar.1 (.star ar.1), rest)
      | _ => ar

def compileRE (pattern : String) : RE :=
  (parseFuel (4 * pattern.data.length + 16) 0 pattern.data).1

def mrunFuel (r : RE) (s : List Char) : Nat := (reSize r + 2) * (s.length + 2)

/-- Try a match starting at every position, threading the correct
previous-character word flag for `\b`. -/
def searchAux (ci : Bool) (r : RE) : Bool → List Char → Bool
  | p, [] => !(mrun ci (mrunFuel r []) r p []).isEmpty
  | p, c :: rest =>
      !(mrun ci (mrunFuel r (c :: rest)) r p (c :: rest)).isEmpty ||
        searchAux ci r (isWordChar c) rest

/-- Model of Python re.search(pattern, text) ≠ None (with re.IGNORECASE when
`ci` is true). -/
def reSearch (ci : Bool) (pattern text : String) : Bool :=
  searchAux ci (compileRE pattern) false text.data

/-! ## Guardrail signature tables (backend/guardrails.py)

The pattern strings are the source's raw-string regexes; backslashes are
escaped for Lean and apostrophes are written as \x27. -/

def GREETING_PATTERNS : List String :=
  [ "\\b(bonjour|bonsoir|salut|coucou|hey|wesh|yo|salam)\\b",
    "\\b(hello|hi|hey|good morning|good evening|good afternoon)\\b",
    "\\b(merci|au revoir|bye|goodbye|à bientôt|à plus|adieu|bonne journée|bonne soirée)\\b",
    "\\b(qui es-tu|tu es qui|what are you|comment tu t\x27appelles|tu fais quoi|c\x27est quoi)\\b",
    "\\b(quel est ton (nom|rôle)|présente-toi|tu sers à quoi)\\b",
    "\\b(aide|help|comment ça marche|comment utiliser|tu peux m\x27aider)\\b",
    "\\b(que (peux|sais)-tu faire|tes capacités|tes fonctionnalités)\\b" ]

def GREETING_RESPONSE : String :=
  "Bonjour ! Je suis votre **AI Data Assistant**.\n\n" ++
  "Mon rôle est de répondre à vos questions sur les données de l\x27entreprise " ++
  "(clients, produits, commandes) en les transformant en requêtes SQL.\n\n" ++
  "Voici quelques exemples de questions que vous pouvez me poser :\n" ++
  "- Combien de clients actifs sont dans chaque ville ?\n" ++
  "- Quel est le chiffre d\x27affaires total ?\n" ++
  "- Quels sont les 5 produits les plus vendus ?\n" ++
  "- Quelles sont les commandes de Marie Dupont ?\n\n" ++
  "Comment puis-je vous aider ?"

def OFF_TOPIC_PATTERNS : List String :=
  [ "\\b(météo|weather|température|pluie|soleil|neige|vent|orage|nuage|tempête)\\b",
    "\\b(brouillard|grêle|canicule|verglas|climat|prévision|forecast)\\b",
    "(temps qu.il fait|quel temps|il fait .* temps|il fait (beau|chaud|froid|moche))",
    "\\b(blague|joke|humour|drôle|funny|raconte|rigolo|marrant|gag|sketch)\\b",
    "\\b(devinette|charade|poème|poésie|rime)\\b",
    "\\b(recette|cuisine|cuisson|ingrédient|manger|plat|restaurant|menu|repas)\\b",
    "\\b(dîner|déjeuner|petit-déjeuner|gâteau|dessert|pâtisserie|boulangerie)\\b",
    "\\b(végétarien|végan|régime|calorie|nutrition)\\b",
    "\\b(python|javascript|java|html|css|typescript|react|angular|vue)\\b",
    "\\b(programmer|coder|développer|framework|library|api|github|gitlab)\\b",
    "\\b(algorithme|variable|fonction|boucle|compiler|debug|bug|stack)\\b",
    "\\b(php|ruby|rust|golang|swift|kotlin|flutter|django|nodejs)\\b",
    "\\b(politique|élection|président|parti|gouvernement|ministre|député)\\b",
    "\\b(sénat|parlement|vote|référendum|loi|constitution|campagne)\\b",
    "\\b(gauche|droite|macron|trump|biden|démocratie|dictature)\\b",
    "\\b(sport|football|tennis|basket|rugby|natation|athlétisme|volleyball)\\b",
    "\\b(olympique|coupe du monde|championnat|ligue|fifa|uefa|nba)\\b",
    "\\b(but|score|équipe|joueur|entraîneur|arbitre|stade|marathon)\\b",
    "\\b(handball|golf|ski|surf|boxe|karaté|judo|escrime|cyclisme)\\b",
    "\\b(film|série|musique|chanson|acteur|actrice|cinéma|netflix|disney)\\b",
    "\\b(youtube|spotify|streaming|concert|album|artiste|réalisateur)\\b",
    "\\b(oscar|grammy|jeu vidéo|gaming|playstation|xbox|nintendo|manga|anime)\\b",
    "\\b(roman|livre|auteur|écrivain|bibliothèque|lecture|bande dessinée)\\b",
    "\\b(voyag|vacance|hôtel|avion|train|destination|tourisme|croisière)\\b",
    "\\b(plage|montagne|camping|visa|passeport|billet|valise|aéroport)\\b",
    "\\b(airbnb|booking|excursion|itinéraire|road trip)\\b",
    "\\b(santé|médecin|maladie|symptôme|docteur|hôpital|pharmacie)\\b",
    "\\b(médicament|ordonnance|douleur|fièvre|grippe|covid|vaccin|virus)\\b",
    "\\b(chirurgie|opération|dentiste|kiné|psychologue|thérapie|allergie)\\b",
    "\\b(animal|animaux|chien|chat|oiseau|poisson|hamster|lapin|tortue)\\b",
    "\\b(vétérinaire|cheval|serpent|araignée|insecte|zoo|aquarium)\\b",
    "\\b(école|université|examen|cours|diplôme|étudiant|professeur)\\b",
    "\\b(baccalauréat|licence|master|doctorat|thèse|scolaire|bourse)\\b",
    "\\b(religion|dieu|église|mosquée|synagogue|temple|prière|bible|coran)\\b",
    "\\b(foi|spirituel|croyance|athée|bouddhisme|islam|christianisme)\\b",
    "\\b(amour|couple|mariage|divorce|rencontre|relation|sentiment)\\b",
    "\\b(cœur|jalousie|rupture|fiancé|célibataire|tinder|dating)\\b",
    "\\b(mode|vêtement|chaussure|robe|pantalon|marque|tendance|shopping)\\b",
    "\\b(bijou|accessoire|parfum|maquillage|coiffure|beauté|cosmétique)\\b",
    "\\b(horoscope|astrologie|signe|zodiaque|verseau|balance|scorpion)\\b",
    "\\b(tarot|voyance|médium|ésotéri|paranormal|fantôme|ovni)\\b",
    "\\b(capitale|population|superficie|continent|océan|fleuve|montagne)\\b",
    "\\b(roi|reine|empereur|guerre|bataille|révolution|siècle|histoire)\\b",
    "\\b(mathématique|physique|chimie|biologie|formule|équation|atome)\\b",
    "\\b(molécule|espace|planète|galaxie|étoile|solaire|gravité|quantique)\\b",
    "\\b(dinosaure|fossile|évolution|darwin|adn|génétique|cellule)\\b",
    "\\b(immobilier|appartement|maison|loyer|achat|vente|hypothèque)\\b",
    "\\b(déménagement|propriétaire|locataire|agence immobilière)\\b",
    "\\b(voiture|automobile|moto|vélo|permis de conduire|essence|diesel)\\b",
    "\\b(tesla|bmw|mercedes|peugeot|renault|pneu|garage|mécanicien)\\b",
    "\\b(actualité|nouvelles|journal|infos|presse|média|reporter|journaliste)\\b",
    "\\b(bourse|bitcoin|crypto|action|investir|épargne|placement|trading)\\b",
    "\\b(impôt|taxe|retraite|assurance|banque|crédit|prêt|hypothèque)\\b",
    "\\b(bricolage|jardinage|plante|fleur|arbre|pelouse|potager|outil)\\b",
    "\\b(peinture|plomberie|électricité|carrelage|rénovation|menuiserie)\\b",
    "\\b(smartphone|iphone|samsung|android|ios|tablette|gadget)\\b",
    "\\b(wifi|bluetooth|5g|fibre|internet|réseau social|facebook|instagram|tiktok)\\b" ]

def OFF_TOPIC_RESPONSE : String :=
  "Désolé, je ne suis pas en mesure de répondre à ce type de question. " ++
  "Mon domaine se limite aux **données de l\x27entreprise** : clients, produits et commandes.\n\n" ++
  "Essayez par exemple :\n" ++
  "- Quel est le chiffre d\x27affaires total ?\n" ++
  "- Combien de clients actifs par ville ?\n" ++
  "- Quels sont les produits les plus vendus ?"

def SQL_INJECTION_PATTERNS : List String :=
  [ "\\b(DROP|DELETE|UPDATE|INSERT|ALTER|TRUNCATE|GRANT|REVOKE)\\b",
    "\\b(CREATE|RENAME|REPLACE|MERGE|UPSERT)\\b",
    "\\b(EXEC|EXECUTE|xp_|sp_)\\b",
    "\\b(SHUTDOWN|KILL|BACKUP|RESTORE)\\b",
    "(--|;|/\\*|\\*/|@@|#\\s)",
    "(char\\(|nchar\\(|varchar\\(|concat\\(|hex\\(|unhex\\()",
    "(0x[0-9a-fA-F]+)",
    "(\\bUNION\\b.*\\bSELECT\\b)",
    "(\\bUNION\\b\\s+\\bALL\\b)",
    "(\\bOR\\b\\s+\\d+\\s*=\\s*\\d+)",
    "(\\bAND\\b\\s+\\d+\\s*=\\s*\\d+)",
    "(\\bOR\\b\\s+[\x27\\\"].*[\x27\\\"]\\s*=\\s*[\x27\\\"])",
    "(\\bOR\\b\\s+\x27\x27=\x27\x27)",
    "(\\bOR\\b\\s+true\\b)",
    "\\b(SLEEP|WAITFOR|DELAY|BENCHMARK|pg_sleep)\\b",
    "\\b(pg_catalog|pg_shadow|pg_roles|pg_user|pg_tables)\\b",
    "\\b(information_schema|sys\\.|sysobjects|syscolumns)\\b",
    "\\b(LOAD_FILE|INTO\\s+OUTFILE|INTO\\s+DUMPFILE|COPY\\s+TO|COPY\\s+FROM)\\b",
    "\\b(supprime[rz]?|efface[rz]?|détruire?|détruis)\\b",
    "\\b(vide[rz]?|purge[rz]?|nettoie[rz]?|nettoyer)\\b",
    "\\b(modifie[rz]?|modifier|édite[rz]?|éditer)\\b",
    "\\b(met[sz]?\\s.*à jour|mise à jour|mettre à jour)\\b",
    "\\b(ajoute[rz]?|ajouter|insère[rz]?|insérer)\\b",
    "\\b(créer|crée[rz]?|renomme[rz]?|renommer)\\b",
    "\\b(remplace[rz]?|remplacer|écrase[rz]?|écraser)\\b",
    "\\b(réinitialise[rz]?|réinitialiser|reset)\\b",
    "\\b(enlève[rz]?|enlever|retire[rz]?|retirer)\\b",
    "\\b(restaure[rz]?|restaurer|migre[rz]?|migrer)\\b" ]

def DESTRUCTIVE_RESPONSE : String :=
  "Je ne peux pas effectuer d\x27opérations de modification sur la base de données. " ++
  "Mon rôle est uniquement de **consulter** les données (lecture seule).\n\n" ++
  "Essayez plutôt une question de consultation :\n" ++
  "- Quels sont les clients actifs ?\n" ++
  "- Quel est le chiffre d\x27affaires total ?\n" ++
  "- Quels sont les produits les plus vendus ?"

def PROMPT_INJECTION_PATTERNS : List String :=
  [ "(ignore[rz]?\\s+(tes|les|mes|ces)\\s+instructions)",
    "(oublie[rz]?\\s+(tes|les|mes|ces)\\s+instructions)",
    "(ne\\s+(tiens?|tenez)\\s+pas\\s+compte)",
    "(fais\\s+comme\\s+si|fais\\s+semblant)",
    "(ignore\\s+(previous|all|your|the)\\s+instructions?)",
    "(forget\\s+(your|all|previous)\\s+instructions?)",
    "(disregard\\s+(your|all|previous))",
    "(tu\\s+es\\s+maintenant|agis\\s+comme|joue\\s+le\\s+rôle)",
    "(comporte[- ]toi\\s+comme|deviens|transforme[- ]toi)",
    "(ton\\s+nouveau\\s+rôle|ta\\s+nouvelle\\s+mission)",
    "(you\\s+are\\s+now|act\\s+as|pretend\\s+(you are|to be))",
    "(your\\s+new\\s+role|your\\s+new\\s+purpose)",
    "(roleplay|role[- ]play)",
    "\\b(jailbreak|bypass|contourne[rz]?|hack|exploit)\\b",
    "\\b(DAN|do anything now)\\b",
    "(developer\\s+mode|mode\\s+développeur|god\\s+mode|admin\\s+mode)",
    "(no\\s+restrictions?|sans\\s+restrictions?|sans\\s+limites?)",
    "(no\\s+rules?|sans\\s+règles?)",
    "(unrestricted|unfiltered|uncensored)",
    "(system\\s+prompt|prompt\\s+système|instructions?\\s+système)",
    "(montre[rz]?\\s+(tes|les)\\s+(instructions|règles|consignes))",
    "(affiche[rz]?\\s+(ton|le)\\s+prompt)",
    "(répète[rz]?\\s+(tes|les)\\s+instructions)",
    "(show\\s+(me\\s+)?(your|the)\\s+(prompt|instructions|rules))",
    "(reveal\\s+(your|the)\\s+(prompt|instructions|system))",
    "(\\[SYSTEM\\]|\\[INST\\]|\\[/INST\\]|<<SYS>>|<\\|im_start\\|>)",
    "(###\\s*(System|Human|Assistant|Instruction))",
    "\\b(override|outrepasse[rz]?|surcharge[rz]?|dépasse[rz]?)\\b",
    "(priorité\\s+maximale|highest\\s+priority|urgent\\s+override)" ]

def PROMPT_INJECTION_RESPONSE : String :=
  "Tentative de manipulation détectée. Je ne peux pas modifier mon comportement.\n\n" ++
  "Je suis un **assistant data** dédié aux questions sur les données de l\x27entreprise.\n\n" ++
  "Essayez par exemple :\n" ++
  "- Quel est le chiffre d\x27affaires total ?\n" ++
  "- Combien de clients actifs par ville ?\n" ++
  "- Quels sont les produits les plus vendus ?"

/-! ## Classifier functions (backend/guardrails.py, lines 254-285) -/

/-- guardrails.is_greeting: lower-cases the text and searches the greeting
patterns (case-sensitively, as in the source). -/
def is_greeting (text : String) : Bool :=
  GREETING_PATTERNS.any (fun p => reSearch false p (pyLower text))

/-- guardrails.is_off_topic. -/
def is_off_topic (text : String) : Bool :=
  OFF_TOPIC_PATTERNS.any (fun p => reSearch false p (pyLower text))

/-- guardrails.is_destructive: IGNORECASE search of the SQL-injection /
destructive-intent signatures over the raw text. -/
def is_destructive (text : String) : Bool :=
  SQL_INJECTION_PATTERNS.any (fun p => reSearch true p text)

/-- guardrails.is_prompt_injection. -/
def is_prompt_injection (text : String) : Bool :=
  PROMPT_INJECTION_PATTERNS.any (fun p => reSearch true p text)

/-! ## Read-only execution backstop (backend/tools.py) -/

def DANGEROUS_KEYWORDS : List String :=
  ["DROP", "DELETE", "UPDATE", "INSERT", "ALTER", "TRUNCATE", "CREATE", "GRANT"]

/-- Outcome of the gate at the top of tools.execute_sql_readonly: either an
error string is returned without touching the database, or the query is
handed to the (external) database connection. -/
inductive ExecOutcome where
  | error (msg : String)
  | runQuery (query : String)

/-- The pure gating prefix of tools.execute_sql_readonly (lines 24-31): the
stripped, upper-cased statement must start with SELECT and contain none of
the destructive keywords, otherwise an error string is returned before any
database connection is opened. -/
def execute_sql_readonly_gate (query : String) : ExecOutcome :=
  let query_upper := pyUpper (pyStrip query)
  if !(startsWithStr query_upper ("SELECT")) then
    .error "ERREUR : Seules les requêtes SELECT sont autorisées."
  else
    match DANGEROUS_KEYWORDS.find? (fun kw => containsSubStr query_upper kw) with
    | some kw => .error ("ERREUR : Opération \x27" ++ kw ++ "\x27 interdite. Seul SELECT est autorisé.")
    | none => .runQuery query

/-! ## Auth / RBAC principal resolution (backend/auth.py) -/

def AUTH_ALL_TABLES : List String := ["clients", "produits", "commandes"]

/-- The fields of a decoded JWT payload that get_current_user reads; absent
dictionary keys are `none`. -/
structure TokenPayload where
  user_id : Nat
  email : String
  role : Option String
  allowed_tables : Option (List String)

structure CurrentUser where
  user_id : Nat
  email : String
  role : String
  allowed_tables : List String

/-- auth.get_current_user (lines 114-126): missing role defaults to "user",
missing allowed_tables defaults to the full table list, and an admin role
always receives the full table list. -/
def get_current_user (payload : TokenPayload) : CurrentUser :=
  let role := payload.role.getD "user"
  let allowed0 := payload.allowed_tables.getD AUTH_ALL_TABLES
  let allowed := if role = "admin" then AUTH_ALL_TABLES else allowed0
  ⟨payload.user_id, payload.email, role, allowed⟩

/-! ## RBAC table configuration (backend/agents.py, lines 213-224) -/

def ALL_TABLES_LIST : List String := ["clients", "produits", "commandes"]

def TABLE_SCHEMAS : List (String × String) :=
  [ ("clients", "- clients (id, nom, prenom, email, ville, date_inscription, statut)\n      → statut : UNIQUEMENT \x27actif\x27 ou \x27inactif\x27"),
    ("produits", "- produits (id, nom, categorie, prix)"),
    ("commandes", "- commandes (id, client_id, produit_id, quantite, montant_total, date_commande, statut)\n      → statut : UNIQUEMENT \x27completee\x27, \x27en_cours\x27 ou \x27annulee\x27") ]

/-- TABLE_RELATIONS: each entry is the (frozenset) pair of endpoint tables
together with the relation line emitted into the generator instructions,
in the dictionary's insertion order. -/
def TABLE_RELATIONS : List ((String × String) × String) :=
  [ (("clients", "commandes"), "- commandes.client_id → clients.id"),
    (("produits", "commandes"), "- commandes.produit_id → produits.id") ]

def lookupSchema (t : String) : Option String :=
  (TABLE_SCHEMAS.find? (fun p => p.1 == t)).map (fun p => p.2)

/-- The list of schema lines `TABLE_SCHEMAS[t] for t in allowed_tables if t
in TABLE_SCHEMAS` (source order: the order of the allowed_tables list). -/
def tableLinesList (allowed : List String) : List String :=
  allowed.filterMap lookupSchema

/-- The relation lines kept by build_sql_generator_instructions: a relation
is emitted iff its endpoint pair is a subset of the allowed set. -/
def relation_lines (allowed : List String) : List String :=
  (TABLE_RELATIONS.filter
    (fun pr => allowed.contains pr.1.1 && allowed.contains pr.1.2)).map (fun pr => pr.2)

/-- ALL_TABLES - allowed_set, as computed for the INTERDIT note. -/
def disallowedTables (allowed : List String) : List String :=
  ALL_TABLES_LIST.filter (fun t => !(allowed.contains t))

def relationsSection (allowed : List String) : String :=
  if (relation_lines allowed).isEmpty then "Aucune relation disponible."
  else joinSep "\n    " (relation_lines allowed)

def disallowedNote (allowed : List String) : String :=
  if (disallowedTables allowed).isEmpty then ""
  else
    "\n\n    INTERDIT : Tu n\x27as PAS accès aux tables suivantes : " ++
      (joinSep ", " (sortStrings (disallowedTables allowed)) ++
        ". Ne génère JAMAIS de SQL les référençant.")

/-- agents.build_sql_generator_instructions (lines 227-270). -/
def build_sql_generator_instructions (allowed_tables : List String) : String :=
  "À partir de l\x27intention analysée et du contexte schéma fourni, génère UNE requête SQL PostgreSQL.\n\n" ++
  "    TABLES DISPONIBLES (il n\x27en existe AUCUNE autre) :\n    " ++
  joinSep "\n    " (tableLinesList allowed_tables) ++
  "\n\n    RELATIONS :\n    " ++
  relationsSection allowed_tables ++
  "\n    " ++
  disallowedNote allowed_tables ++
  "\n\n    ATTENTION :\n" ++
  "    - Il n\x27existe PAS de table \"ventes\", \"details_commande\", \"orders\" ou autre.\n" ++
  "    - Les ventes/achats sont dans la table \"commandes\".\n" ++
  "    - Le chiffre d\x27affaires = SUM(montant_total) WHERE statut = \x27completee\x27\n" ++
  "    - N\x27ajoute PAS de conditions qui ne sont pas demandées.\n" ++
  "    - Traduis EXACTEMENT la question en SQL, rien de plus.\n\n" ++
  "    Règles strictes :\n" ++
  "    - SELECT uniquement (jamais INSERT, UPDATE, DELETE, DROP)\n" ++
  "    - Une seule requête\n" ++
  "    - Utilise UNIQUEMENT les tables listées ci-dessus\n" ++
  "    - PostgreSQL syntax uniquement\n" ++
  "    - Utilise des alias lisibles (AS nom_colonne)\n" ++
  "    - Utilise les JOINs corrects selon les relations ci-dessus\n\n" ++
  "    Retourne UNIQUEMENT la requête SQL, sans explication.\n" ++
  "    Format : la requête SQL brute, rien d\x27autre."

/-! ## SQL surface extraction (backend/agents.py, lines 289-307) -/

/-- The keyword of the regex `\bFROM\s+([a-zA-Z_]\w*)`. -/
def FROM_KW : List Char := ['F', 'R', 'O', 'M']

/-- The keyword of the regex `\bJOIN\s+([a-zA-Z_]\w*)`. -/
def JOIN_KW : List Char := ['J', 'O', 'I', 'N']

/-- Try to match `KW\s+([a-zA-Z_]\w*)` (IGNORECASE) at the head of the
input; on success return the captured identifier and the rest of the input
after the match. -/
def tryTableRef (kw : List Char) (s : List Char) : Option (List Char × List Char) :=
  match isPrefixCI kw s, s.drop kw.length with
  | false, _ => none
  | true, s1 =>
      let sp := s1.takeWhile isPySpace
      if sp.isEmpty then none
      else
        match s1.drop sp.length with
        | [] => none
        | c :: rest =>
            if c.isAlpha || c == '_' then
              let t := rest.takeWhile isWordChar
              some (c :: t, rest.drop t.length)
            else none

/-- Left-to-right non-overlapping scan, as re.findall does: at each position
whose preceding character is not a word character (`\b`), try the
keyword-identifier match; on success record the identifier and resume after
it, otherwise advance one character. -/
def scanKwAux : Nat → List Char → Bool → List Char → List (List Char)
  | 0, _, _, _ => []
  | _ + 1, _, _, [] => []
  | fuel + 1, kw, prevWord, c :: rest =>
      if prevWord then scanKwAux fuel kw (isWordChar c) rest
      else
        match tryTableRef kw (c :: rest) with
        | some (ident, after) => ident :: scanKwAux fuel kw true after
        | none => scanKwAux fuel kw (isWordChar c) rest

def scanKw (kw : List Char) (s : List Char) : List (List Char) :=
  scanKwAux (s.length + 1) kw false s

/-- agents.extract_table_names: identifiers right after FROM/JOIN
(IGNORECASE), lower-cased, intersected with ALL_TABLES.  The Python function
returns a set; this model returns the list of its members (possibly with
duplicates, which is irrelevant to every membership statement below). -/
def extract_table_names (sql : String) : List String :=
  let raw := scanKw FROM_KW sql.data ++ scanKw JOIN_KW sql.data
  let lowered := raw.map (fun cs => String.mk (cs.map pyLowerChar))
  lowered.filter (fun t => ALL_TABLES_LIST.contains t)

def fenceChars : List Char := ['`', '`', '`']

def findSubIdx (pat : List Char) : List Char → Option Nat
  | [] => if pat.isEmpty then some 0 else none
  | c :: rest =>
      if pat.isPrefixOf (c :: rest) then some 0
      else (findSubIdx pat rest).map (fun n => n + 1)

/-- agents.extract_sql: take the content of the first markdown code fence
(dropping an optional `sql` tag and stripping), or the stripped text when
there is no fenced block. -/
def extract_sql (text : String) : String :=
  let cs := text.data
  match findSubIdx fenceChars cs with
  | none => pyStrip text
  | some i =>
      let afterOpen := cs.drop (i + 3)
      let body :=
        if (['s', 'q', 'l'] : List Char).isPrefixOf afterOpen then afterOpen.drop 3
        else afterOpen
      match findSubIdx fenceChars body with
      | none => pyStrip text
      | some j => String.mk (pyStripList (body.take j))

/-! ## Pipeline workflow (backend/agents.py, lines 315-445)

The six LLM/database collaborators are untrusted oracles: each maps the
textual input it receives to the text it returns. -/

structure Collaborators where
  intentResp : String → String
  ragResp : String → String
  genResp : String → String
  secResp : String → String
  dbResp : String → String
  fmtResp : String → String

structure StepOutput where
  content : String
  success : Bool

/-- The mutable PipelineState shared by the class-based executors. -/
structure PipelineState where
  allowed_tables : List String
  session_id : Option String
  sql_query : Option String

def Step := Collaborators → PipelineState → String → PipelineState × StepOutput

/-- IntentExecutor. -/
def intentStep : Step := fun C st input => (st, ⟨C.intentResp input, true⟩)

/-- RAGSchemaExecutor. -/
def ragStep : Step := fun C st prev => (st, ⟨C.ragResp prev, true⟩)

/-- SQLGeneratorExecutor: stores extract_sql of the generated content in the
shared state. -/
def sqlGeneratorStep : Step := fun C st prev =>
  let content := C.genResp prev
  (⟨st.allowed_tables, st.session_id, some (extract_sql content)⟩, ⟨content, true⟩)

/-- The SQLSecurityExecutor rejection marker test:
`"REJETÉE" in security_text.upper() or "REJETEE" in security_text.upper()`. -/
def securityRejectionMarker (securityText : String) : Bool :=
  containsSubStr (pyUpper securityText) ("REJETÉE") ||
    containsSubStr (pyUpper securityText) ("REJETEE")

def SECURITY_REJECT_PREFIX : String :=
  "Requête SQL rejetée pour raison de sécurité : "

def ACCESS_DENIED_PREFIX : String :=
  "Accès refusé : vous n\x27avez pas la permission d\x27interroger les tables : "

/-- `referenced - set(allowed)` of SQLSecurityExecutor. -/
def unauthorizedFor (allowed : List String) (sql : String) : List String :=
  (extract_table_names sql).filter (fun t => !(allowed.contains t))

/-- The refusal content naming the offending tables (sorted, deduplicated,
comma-joined, as Python renders the set). -/
def accessDeniedContent (allowed : List String) (sql : String) : String :=
  ACCESS_DENIED_PREFIX ++
    (joinSep ", " (sortStrings (unauthorizedFor allowed sql).dedup) ++ ".")

/-- SQLSecurityExecutor.__call__ (lines 363-393): first the agent-level
rejection marker, then the regex hard check against the allowed tables.  A
rejection clears the stored SQL and returns a failed StepOutput.  The Python
guard `if self.state.sql_query:` skips the hard check when the stored SQL is
None or the empty string; since `extract_table_names ""` is empty, that is
exactly the case in which the check passes vacuously, so the guard is
folded into the unauthorized-set test on `st.sql_query.getD ""`. -/
def sqlSecurityStep : Step := fun C st prev =>
  if securityRejectionMarker (C.secResp prev) then
    (⟨st.allowed_tables, st.session_id, none⟩,
      ⟨SECURITY_REJECT_PREFIX ++ C.secResp prev, false⟩)
  else if (unauthorizedFor st.allowed_tables (st.sql_query.getD "")).isEmpty then
    (st, ⟨C.secResp prev, true⟩)
  else
    (⟨st.allowed_tables, st.session_id, none⟩,
      ⟨accessDeniedContent st.allowed_tables (st.sql_query.getD ""), false⟩)

/-- DBExecutorExecutor. -/
def dbStep : Step := fun C st prev => (st, ⟨C.dbResp prev, true⟩)

/-- ResponseFormatterExecutor. -/
def fmtStep : Step := fun C st prev => (st, ⟨C.fmtResp prev, true⟩)

/-- The Agno Workflow runner contract: steps run in listed order, each
consuming the previous step's content; a step whose output has
`success = false` stops the run there and its content becomes the final
content.  The returned list is the names of the steps that actually ran. -/
def runStepsTrace (C : Collaborators) :
    List (String × Step) → PipelineState → String → PipelineState × String × List String
  | [], st, input => (st, input, [])
  | (name, f) :: rest, st, input =>
      let r := f C st input
      if r.2.success then
        let k := runStepsTrace C rest r.1 r.2.content
        (k.1, k.2.1, name :: k.2.2)
      else (r.1, r.2.content, [name])

def pipelineSteps : List (String × Step) :=
  [ ("Intent Analysis", intentStep),
    ("RAG Schema Retrieval", ragStep),
    ("SQL Generation", sqlGeneratorStep),
    ("SQL Security", sqlSecurityStep),
    ("DB Execution", dbStep),
    ("Response Formatting", fmtStep) ]

structure PipelineResult where
  response : String
  sql_query : Option String
  /-- Instrumentation: names of the steps that were invoked. -/
  trace : List String

def DEFAULT_PIPELINE_RESPONSE : String :=
  "Désolé, je n\x27ai pas pu traiter votre question."

/-- agents.run_pipeline (lines 420-445): a missing allowed_tables argument
defaults to the full table list, the state is threaded through the workflow,
and the returned dict carries the final content (or a default) together with
the state's sql_query. -/
def run_pipeline (C : Collaborators) (question : String) (session_id : Option String)
    (allowed_tables : Option (List String)) : PipelineResult :=
  let allowed := allowed_tables.getD ALL_TABLES_LIST
  let st : PipelineState := ⟨allowed, session_id, none⟩
  let r := runStepsTrace C pipelineSteps st question
  ⟨if r.2.1 = "" then DEFAULT_PIPELINE_RESPONSE else r.2.1, r.1.sql_query, r.2.2⟩

/-- The generated content fed to the security step, as composed by the
first three pipeline stages. -/
def genContent (C : Collaborators) (question : String) : String :=
  C.genResp (C.ragResp (C.intentResp question))

/-- The pipeline state right after the SQL generation step. -/
def stAfterGen (C : Collaborators) (question : String) (sess : Option String)
    (allowed : List String) : PipelineState :=
  ⟨allowed, sess, some (extract_sql (genContent C question))⟩

/-- The (state, output) pair produced by the security step inside
run_pipeline. -/
def secResultOf (C : Collaborators) (question : String) (sess : Option String)
    (aOpt : Option (List String)) : PipelineState × StepOutput :=
  sqlSecurityStep C (stAfterGen C question sess (aOpt.getD ALL_TABLES_LIST))
    (genContent C question)

/-! ## HTTP entry point (backend/api.py, ask_question, lines 234-273) -/

inductive AskResult where
  | badRequest (detail : String)
  | ok (response : String) (sql_query : Option String) (pipelineRan : Bool)

/-- api.ask_question: validity checks on the stripped question, then the
four pre-check classifiers in source order, each short-circuiting to its
canned response without running the pipeline (`pipelineRan = false`); only
when all four fail is run_pipeline invoked. -/
def ask_question (C : Collaborators) (rawQuestion : String) (session_id : Option String)
    (allowed_tables : List String) : AskResult :=
  let question := pyStrip rawQuestion
  if question = "" then .badRequest "La question ne peut pas être vide."
  else if question.length > 1000 then
    .badRequest "La question est trop longue (max 1000 caractères)."
  else if is_greeting question then .ok GREETING_RESPONSE none false
  else if is_off_topic question then .ok OFF_TOPIC_RESPONSE none false
  else if is_destructive question then .ok DESTRUCTIVE_RESPONSE none false
  else if is_prompt_injection question then .ok PROMPT_INJECTION_RESPONSE none false
  else
    let result := run_pipeline C question session_id (some allowed_tables)
    .ok result.response result.sql_query true

/-! ## Concrete collaborator oracles used for evaluation -/

/-- An oracle whose generator emits a clean query on `clients` and whose
review agent raises no objection. -/
def oracleClean : Collaborators :=
  ⟨fun s => s, fun s => s, fun _ => "SELECT * FROM clients", fun _ => "OK",
    fun s => s, fun s => s⟩

/-- An oracle whose review agent returns the rejection marker. -/
def oracleReviewReject : Collaborators :=
  ⟨fun s => s, fun s => s, fun _ => "SELECT * FROM clients",
    fun _ => "REJETÉE : tables non autorisées", fun s => s, fun s => s⟩

/-- An oracle whose generator emits SQL carrying an injection signature
(a `--` comment) while the review agent raises no objection. -/
def oracleInjectionSql : Collaborators :=
  ⟨fun s => s, fun s => s, fun _ => "SELECT * FROM clients WHERE id = 1 --",
    fun _ => "OK", fun s => s, fun s => s⟩

/-! ## Helper lemmas -/

theorem contains_iff_mem (l : List String) (a : String) : l.contains a = true ↔ a ∈ l :=
  List.elem_iff

theorem string_append_ne_empty (a b : String) (h : a.data ≠ []) : a ++ b ≠ "" := by
  intro hc
  rw [String.ext_iff, String.data_append] at hc
  simp at hc
  exact h hc.1

/-- Everything extracted by extract_table_names lies in the table universe. -/
theorem extract_mem_universe (sql : String) (t : String)
    (h : t ∈ extract_table_names sql) : t ∈ ALL_TABLES_LIST := by
  unfold extract_table_names at h
  exact (contains_iff_mem _ _).mp (List.of_mem_filter h)

/-- A successful keyword-identifier match means the keyword is a
case-insensitive prefix of the input at this position. -/
theorem tryTableRef_prefix (kw s : List Char) (r : List Char × List Char)
    (h : tryTableRef kw s = some r) : isPrefixCI kw s = true := by
  unfold tryTableRef at h
  by_cases hp : isPrefixCI kw s = true
  · exact hp
  · rw [Bool.not_eq_true] at hp
    rw [hp] at h
    simp at h

/-- If the keyword does not occur (case-insensitively) in the input, the
scanner finds nothing. -/
theorem scanKwAux_eq_nil (kw : List Char) :
    ∀ (fuel : Nat) (s : List Char) (pw : Bool),
      containsCI kw s = false → scanKwAux fuel kw pw s = [] := by
  intro fuel
  induction fuel with
  | zero => intro s pw _; rfl
  | succ n ih =>
      intro s pw h
      match s with
      | [] => rfl
      | c :: rest =>
          have h2 : isPrefixCI kw (c :: rest) = false ∧ containsCI kw rest = false := by
            have := h
            unfold containsCI at this
            exact Bool.or_eq_false_iff.mp this
          unfold scanKwAux
          by_cases hpw : pw
          · simp only [hpw, if_true]
            exact ih rest (isWordChar c) h2.2
          · simp only [hpw, if_false, Bool.false_eq_true]
            match htr : tryTableRef kw (c :: rest) with
            | some r =>
                have := tryTableRef_prefix kw (c :: rest) r htr
                rw [this] at h2
                exact absurd h2.1 (by simp)
            | none => exact ih rest (isWordChar c) h2.2

/-! ### Security-step lemmas -/

/-- If after the security step the stored SQL is `some q`, then it was
already `some q` before the step and every table extracted from `q` is
allowed. -/
theorem sqlSecurityStep_sql_some (C : Collaborators) (st : PipelineState) (prev q : String)
    (h : ((sqlSecurityStep C st prev).1).sql_query = some q) :
    st.sql_query = some q ∧ ∀ t ∈ extract_table_names q, t ∈ st.allowed_tables := by
  unfold sqlSecurityStep at h
  by_cases hm : securityRejectionMarker (C.secResp prev) = true
  · rw [if_pos hm] at h
    simp at h
  · rw [if_neg hm] at h
    by_cases hu : (unauthorizedFor st.allowed_tables (st.sql_query.getD "")).isEmpty = true
    · rw [if_pos hu] at h
      have hq : st.sql_query = some q := h
      refine ⟨hq, ?_⟩
      intro t ht
      have hgetd : st.sql_query.getD "" = q := by rw [hq]; rfl
      rw [hgetd] at hu
      have hnil : (extract_table_names q).filter
          (fun t => !(st.allowed_tables.contains t)) = [] := List.isEmpty_iff.mp hu
      have hc := List.filter_eq_nil_iff.mp hnil t ht
      simp at hc
      exact hc
    · rw [if_neg hu] at h
      simp at h

/-- A failed security step clears the stored SQL and produces a non-empty
refusal content. -/
theorem sqlSecurityStep_fail (C : Collaborators) (st : PipelineState) (prev : String)
    (h : (sqlSecurityStep C st prev).2.success = false) :
    (sqlSecurityStep C st prev).1.sql_query = none ∧
      (sqlSecurityStep C st prev).2.content ≠ "" := by
  unfold sqlSecurityStep at *
  by_cases hm : securityRejectionMarker (C.secResp prev) = true
  · rw [if_pos hm] at *
    exact ⟨rfl, string_append_ne_empty _ _ (by decide)⟩
  · rw [if_neg hm] at *
    by_cases hu : (unauthorizedFor st.allowed_tables (st.sql_query.getD "")).isEmpty = true
    · rw [if_pos hu] at h
      simp at h
    · rw [if_neg hu] at *
      exact ⟨rfl, string_append_ne_empty _ _ (by decide)⟩

/-- The success flag of the security step as a Boolean expression. -/
theorem sqlSecurityStep_success_eq (C : Collaborators) (st : PipelineState) (prev : String) :
    (sqlSecurityStep C st prev).2.success =
      (!securityRejectionMarker (C.secResp prev) &&
        (unauthorizedFor st.allowed_tables (st.sql_query.getD "")).isEmpty) := by
  unfold sqlSecurityStep
  by_cases hm : securityRejectionMarker (C.secResp prev) = true
  · rw [if_pos hm, hm]
    rfl
  · have hm' : securityRejectionMarker (C.secResp prev) = false := by
      rwa [Bool.not_eq_true] at hm
    rw [if_neg hm]
    by_cases hu : (unauthorizedFor st.allowed_tables (st.sql_query.getD "")).isEmpty = true
    · rw [if_pos hu, hm', hu]
      rfl
    · have hu' : (unauthorizedFor st.allowed_tables (st.sql_query.getD "")).isEmpty = false := by
        rwa [Bool.not_eq_true] at hu
      rw [if_neg hu, hm', hu']
      rfl

theorem bool_notand_false (a b : Bool) : ((!a && b) = false) ↔ (a = true ∨ b = false) := by
  cases a <;> cases b <;> simp

/-- The unauthorized-table check fires exactly when a non-empty SQL is
stored whose extracted tables include one outside the allowed set. -/
theorem unauthorized_isEmpty_false_iff (allowed : List String) (o : Option String) :
    (unauthorizedFor allowed (o.getD "")).isEmpty = false ↔
      ∃ q, o = some q ∧ q ≠ "" ∧
        ∃ t, t ∈ extract_table_names q ∧ t ∉ allowed := by
  cases o with
  | none =>
      simp [show unauthorizedFor allowed "" = [] from rfl]
  | some q =>
      by_cases hq : q = ""
      · subst hq
        simp [show unauthorizedFor allowed "" = [] from rfl]
      · simp only [Option.getD_some, Option.some.injEq]
        constructor
        · intro h
          have hne : unauthorizedFor allowed q ≠ [] := by
            intro hh
            rw [hh] at h
            exact absurd h (by simp)
          obtain ⟨t, ht⟩ := List.exists_mem_of_ne_nil _ hne
          have hmem := List.mem_filter.mp ht
          have hta : t ∉ allowed := by
            intro hta
            have h2 := hmem.2
            simp at h2
            exact h2 hta
          exact ⟨q, rfl, hq, t, hmem.1, hta⟩
        · intro hex
          obtain ⟨q', hq', hne, t, ht, hta⟩ := hex
          subst hq'
          cases hemp : (unauthorizedFor allowed q).isEmpty with
          | false => rfl
          | true =>
              exfalso
              have hnil := List.isEmpty_iff.mp hemp
              have htf : t ∈ unauthorizedFor allowed q :=
                List.mem_filter.mpr ⟨ht, by simp [hta]⟩
              rw [hnil] at htf
              simp at htf

/-- Exact characterisation of when the security step rejects: either the
review text carries the rejection marker, or a non-empty stored SQL
references an extracted table outside the allowed set. -/
theorem sqlSecurityStep_fail_iff (C : Collaborators) (st : PipelineState) (prev : String) :
    (sqlSecurityStep C st prev).2.success = false ↔
      (securityRejectionMarker (C.secResp prev) = true ∨
        ∃ q, st.sql_query = some q ∧ q ≠ "" ∧
          ∃ t, t ∈ extract_table_names q ∧ t ∉ st.allowed_tables) := by
  rw [sqlSecurityStep_success_eq, bool_notand_false]
  exact or_congr Iff.rfl (unauthorized_isEmpty_false_iff st.allowed_tables st.sql_query)

/-! ### Workflow-runner reduction -/

/-- run_pipeline reduced to the outcome of its security step: on success the
remaining two stages run and only transform the content; on failure the run
stops at the security stage. -/
theorem run_pipeline_cases (C : Collaborators) (question : String) (sess : Option String)
    (aOpt : Option (List String)) :
    run_pipeline C question sess aOpt =
      (if (secResultOf C question sess aOpt).2.success then
        ⟨if C.fmtResp (C.dbResp (secResultOf C question sess aOpt).2.content) = "" then
            DEFAULT_PIPELINE_RESPONSE
          else C.fmtResp (C.dbResp (secResultOf C question sess aOpt).2.content),
          (secResultOf C question sess aOpt).1.sql_query,
          ["Intent Analysis", "RAG Schema Retrieval", "SQL Generation", "SQL Security",
            "DB Execution", "Response Formatting"]⟩
      else
        ⟨if (secResultOf C question sess aOpt).2.content = "" then DEFAULT_PIPELINE_RESPONSE
          else (secResultOf C question sess aOpt).2.content,
          (secResultOf C question sess aOpt).1.sql_query,
          ["Intent Analysis", "RAG Schema Retrieval", "SQL Generation", "SQL Security"]⟩) := by
  have hsec : secResultOf C question sess aOpt =
      sqlSecurityStep C (stAfterGen C question sess (aOpt.getD ALL_TABLES_LIST))
        (genContent C question) := rfl
  rcases hr : secResultOf C question sess aOpt with ⟨st2, out⟩
  rcases out with ⟨oc, os⟩
  rw [hsec] at hr
  simp only [stAfterGen, genContent] at hr
  cases os <;>
    simp [run_pipeline, pipelineSteps, runStepsTrace, intentStep, ragStep, sqlGeneratorStep,
      dbStep, fmtStep, secResultOf, stAfterGen, genContent, hr]

/-- The sql_query returned by run_pipeline is the one left by the security
step. -/
theorem run_pipeline_sql_query_eq (C : Collaborators) (question : String) (sess : Option String)
    (aOpt : Option (List String)) :
    (run_pipeline C question sess aOpt).sql_query =
      (secResultOf C question sess aOpt).1.sql_query := by
  rw [run_pipeline_cases]
  split <;> rfl

/-! ## Claim theorems -/

/-- C1: Whenever the pipeline accepts a generated SQL string (the security
step succeeds and run_pipeline returns a non-null sql_query), every table
name that extract_table_names extracts from that SQL is a member of the
principal's allowed_tables and of the table universe; an accepted verdict
never carries SQL referencing an extracted table outside either set. -/
theorem C1_accepted_sql_tables_authorized (C : Collaborators) (question : String)
    (sess : Option String) (aOpt : Option (List String)) (q t : String)
    (hq : (run_pipeline C question sess aOpt).sql_query = some q)
    (ht : t ∈ extract_table_names q) :
    t ∈ aOpt.getD ALL_TABLES_LIST ∧ t ∈ ALL_TABLES_LIST := by
  rw [run_pipeline_sql_query_eq] at hq
  have h2 := sqlSecurityStep_sql_some C
    (stAfterGen C question sess (aOpt.getD ALL_TABLES_LIST)) (genContent C question) q hq
  exact ⟨h2.2 t ht, extract_mem_universe q t ht⟩

theorem C1_witness :
    (run_pipeline oracleClean ("combien de clients ?") none (some ["clients"])).sql_query =
        some ("SELECT * FROM clients") ∧
      ("clients" ∈ extract_table_names ("SELECT * FROM clients")) ∧
      ("clients" ∈ (some ["clients"] : Option (List String)).getD ALL_TABLES_LIST ∧
        "clients" ∈ ALL_TABLES_LIST) :=
  ⟨by decide, by decide,
    C1_accepted_sql_tables_authorized oracleClean ("combien de clients ?") none
      (some ["clients"]) ("SELECT * FROM clients") ("clients") (by decide) (by decide)⟩

/-- C6: extract_table_names of a SQL string with no FROM and no JOIN
occurrence (case-insensitive) is empty — the function is total, never an
error — and in general every extracted name lies in the table universe, so
identifiers outside the universe are silently dropped. -/
theorem C6_extract_surface_scan (sql : String) :
    ((containsCI FROM_KW sql.data = false ∧ containsCI JOIN_KW sql.data = false) →
        extract_table_names sql = []) ∧
    ∀ t, t ∈ extract_table_names sql → t ∈ ALL_TABLES_LIST := by
  constructor
  · intro h
    unfold extract_table_names scanKw
    rw [scanKwAux_eq_nil FROM_KW (sql.data.length + 1) sql.data false h.1,
      scanKwAux_eq_nil JOIN_KW (sql.data.length + 1) sql.data false h.2]
    rfl
  · exact fun t => extract_mem_universe sql t

theorem C6_witness :
    (containsCI FROM_KW ("SELECT 1").data = false ∧
        containsCI JOIN_KW ("SELECT 1").data = false) ∧
      extract_table_names ("SELECT 1") = [] ∧
      ("produits" ∈ extract_table_names ("SELECT * FROM produits") ∧
        "produits" ∈ ALL_TABLES_LIST) :=
  ⟨by decide, (C6_extract_surface_scan ("SELECT 1")).1 (by decide),
    by decide, (C6_extract_surface_scan ("SELECT * FROM produits")).2 ("produits") (by decide)⟩

/-- C4: for every principal and every relation pair in the relation map, the
relation line is included in the scoped generator instructions if and only
if both endpoints are among the allowed tables. -/
theorem C4_relation_iff_both_endpoints (allowed : List String)
    (pr : (String × String) × String) (hmem : pr ∈ TABLE_RELATIONS) :
    pr.2 ∈ relation_lines allowed ↔ (pr.1.1 ∈ allowed ∧ pr.1.2 ∈ allowed) := by
  fin_cases hmem <;>
    by_cases h1 : "clients" ∈ allowed <;> by_cases h2 : "commandes" ∈ allowed <;>
      by_cases h3 : "produits" ∈ allowed <;>
        simp [relation_lines, TABLE_RELATIONS, List.filter_cons, Bool.and_eq_true,
          contains_iff_mem, h1, h2, h3]

theorem C4_witness :
    ((("clients", "commandes"), "- commandes.client_id → clients.id") ∈ TABLE_RELATIONS) ∧
      ("- commandes.client_id → clients.id" ∈ relation_lines ["clients", "commandes"]) :=
  ⟨by decide,
    (C4_relation_iff_both_endpoints ["clients", "commandes"]
      (("clients", "commandes"), "- commandes.client_id → clients.id") (by decide)).mpr
      (by decide)⟩

/-- C7: execute_sql_readonly returns an error — before anything reaches the
database — whenever the stripped, upper-cased statement does not begin with
SELECT or contains one of the fixed destructive keywords. -/
theorem C7_readonly_backstop (query : String)
    (h : ¬ (startsWithStr (pyUpper (pyStrip query)) ("SELECT") = true) ∨
        ∃ kw, kw ∈ DANGEROUS_KEYWORDS ∧ containsSubStr (pyUpper (pyStrip query)) kw = true) :
    ∃ msg, execute_sql_readonly_gate query = ExecOutcome.error msg := by
  by_cases hs : startsWithStr (pyUpper (pyStrip query)) ("SELECT") = true
  · have hkw : ∃ kw, kw ∈ DANGEROUS_KEYWORDS ∧
        containsSubStr (pyUpper (pyStrip query)) kw = true := by
      rcases h with h | h
      · exact absurd hs h
      · exact h
    cases hf : DANGEROUS_KEYWORDS.find? (fun kw => containsSubStr (pyUpper (pyStrip query)) kw)
      with
    | none =>
        exfalso
        obtain ⟨kw, hmemk, hc⟩ := hkw
        exact (List.find?_eq_none.mp hf kw hmemk) hc
    | some kw =>
        refine ⟨"ERREUR : Opération \x27" ++ kw ++ "\x27 interdite. Seul SELECT est autorisé.", ?_⟩
        simp [execute_sql_readonly_gate, hs, hf]
  · refine ⟨"ERREUR : Seules les requêtes SELECT sont autorisées.", ?_⟩
    have hs' : startsWithStr (pyUpper (pyStrip query)) ("SELECT") = false := by
      rwa [Bool.not_eq_true] at hs
    simp [execute_sql_readonly_gate, hs']

theorem C7_witness :
    (startsWithStr (pyUpper (pyStrip ("DROP TABLE clients"))) ("SELECT") = false) ∧
      ∃ msg, execute_sql_readonly_gate ("DROP TABLE clients") = ExecOutcome.error msg :=
  ⟨by decide, C7_readonly_backstop ("DROP TABLE clients") (Or.inl (by decide))⟩

/-- C10: a token payload with no allowed_tables claim resolves to a
principal with the full table universe, and run_pipeline with
allowed_tables = None behaves exactly as with the full table list. -/
theorem C10_absent_claim_full_access :
    (∀ p : TokenPayload, p.allowed_tables = none →
        (get_current_user p).allowed_tables = AUTH_ALL_TABLES) ∧
    ∀ (C : Collaborators) (question : String) (sess : Option String),
      run_pipeline C question sess none = run_pipeline C question sess (some ALL_TABLES_LIST) := by
  constructor
  · intro p h
    by_cases hr : p.role.getD "user" = "admin" <;> simp [get_current_user, h, hr]
  · intro C question sess
    rfl

theorem C10_witness :
    ((⟨1, "u@example.com", some "user", none⟩ : TokenPayload).allowed_tables = none) ∧
      (get_current_user ⟨1, "u@example.com", some "user", none⟩).allowed_tables =
        AUTH_ALL_TABLES :=
  ⟨rfl, C10_absent_claim_full_access.1 ⟨1, "u@example.com", some "user", none⟩ rfl⟩

/-- C2: the pre-check classifiers run in the fixed priority order greeting,
off-topic, destructive-intent, prompt-injection; the first matching category
terminates the request with its canned message and run_pipeline is never
invoked (`pipelineRan = false`). -/
theorem C2_precheck_priority_order (C : Collaborators) (rawQ : String) (sess : Option String)
    (allowed : List String) (hne : pyStrip rawQ ≠ "")
    (hlen : (pyStrip rawQ).length ≤ 1000) :
    (is_greeting (pyStrip rawQ) = true →
        ask_question C rawQ sess allowed = AskResult.ok GREETING_RESPONSE none false) ∧
    (is_greeting (pyStrip rawQ) = false → is_off_topic (pyStrip rawQ) = true →
        ask_question C rawQ sess allowed = AskResult.ok OFF_TOPIC_RESPONSE none false) ∧
    (is_greeting (pyStrip rawQ) = false → is_off_topic (pyStrip rawQ) = false →
        is_destructive (pyStrip rawQ) = true →
        ask_question C rawQ sess allowed = AskResult.ok DESTRUCTIVE_RESPONSE none false) ∧
    (is_greeting (pyStrip rawQ) = false → is_off_topic (pyStrip rawQ) = false →
        is_destructive (pyStrip rawQ) = false → is_prompt_injection (pyStrip rawQ) = true →
        ask_question C rawQ sess allowed = AskResult.ok PROMPT_INJECTION_RESPONSE none false) := by
  have hlen' : ¬ ((pyStrip rawQ).length > 1000) := by omega
  refine ⟨?_, ?_, ?_, ?_⟩
  · intro h1
    simp [ask_question, hne, hlen', h1]
  · intro h1 h2
    simp [ask_question, hne, hlen', h1, h2]
  · intro h1 h2 h3
    simp [ask_question, hne, hlen', h1, h2, h3]
  · intro h1 h2 h3 h4
    simp [ask_question, hne, hlen', h1, h2, h3, h4]

theorem C2_witness :
    (is_greeting (pyStrip ("bonjour")) = true ∧
      ask_question oracleClean ("bonjour") none ["clients"] =
        AskResult.ok GREETING_RESPONSE none false) ∧
    (is_off_topic (pyStrip ("météo")) = true ∧
      ask_question oracleClean ("météo") none ["clients"] =
        AskResult.ok OFF_TOPIC_RESPONSE none false) ∧
    (is_destructive (pyStrip ("drop")) = true ∧
      ask_question oracleClean ("drop") none ["clients"] =
        AskResult.ok DESTRUCTIVE_RESPONSE none false) ∧
    (is_prompt_injection (pyStrip ("jailbreak")) = true ∧
      ask_question oracleClean ("jailbreak") none ["clients"] =
        AskResult.ok PROMPT_INJECTION_RESPONSE none false) :=
  ⟨⟨by decide,
      (C2_precheck_priority_order oracleClean ("bonjour") none ["clients"] (by decide)
        (by decide)).1 (by decide)⟩,
    ⟨by decide,
      (C2_precheck_priority_order oracleClean ("météo") none ["clients"] (by decide)
        (by decide)).2.1 (by decide) (by decide)⟩,
    ⟨by decide,
      (C2_precheck_priority_order oracleClean ("drop") none ["clients"] (by decide)
        (by decide)).2.2.1 (by decide) (by decide) (by decide)⟩,
    ⟨by decide,
      (C2_precheck_priority_order oracleClean ("jailbreak") none ["clients"] (by decide)
        (by decide)).2.2.2 (by decide) (by decide) (by decide) (by decide)⟩⟩

/-- C3 as stated is false on the code: the post-generation security step
runs no signature classifier over the generated SQL.  Here a generated SQL
matching the sql-injection signature `--` (with authorized tables and a
review lacking the rejection marker) is accepted: the security step succeeds
and the pipeline returns that SQL. -/
theorem C3_counterexample :
    is_destructive ("SELECT * FROM clients WHERE id = 1 --") = true ∧
      (secResultOf oracleInjectionSql ("q") none none).2.success = true ∧
      (run_pipeline oracleInjectionSql ("q") none none).sql_query =
        some ("SELECT * FROM clients WHERE id = 1 --") :=
  ⟨by decide, by decide, by decide⟩

/-- C3 (amended): the post-generation security step rejects exactly when the
review text contains the rejection marker or the stored non-empty SQL
references an extracted table outside the allowed set; the injection
signatures are not re-checked on the generated SQL (they screen only the
inbound question at pre-check). -/
theorem C3_postcheck_reject_characterization (C : Collaborators) (st : PipelineState)
    (prev : String) :
    (sqlSecurityStep C st prev).2.success = false ↔
      (securityRejectionMarker (C.secResp prev) = true ∨
        ∃ q, st.sql_query = some q ∧ q ≠ "" ∧
          ∃ t, t ∈ extract_table_names q ∧ t ∉ st.allowed_tables) :=
  sqlSecurityStep_fail_iff C st prev

/-- C5 as stated is partly false: with an empty allowed-table set the
pipeline does not fail fast; the SQL Generation stage still runs (and here
the whole request only dies later, at the security stage). -/
theorem C5_counterexample :
    "SQL Generation" ∈ (run_pipeline oracleClean ("question") none (some [])).trace ∧
      (run_pipeline oracleClean ("question") none (some [])).sql_query = none :=
  ⟨by decide, by decide⟩

/-- C5 (amended): for an empty allowed_tables list the scoped construction
yields empty tables and relations and a forbidden set equal to the full
universe, but run_pipeline performs no fail-fast check: the generation stage
is invoked anyway. -/
theorem C5_empty_scope_no_failfast :
    tableLinesList [] = [] ∧ relation_lines [] = [] ∧
      disallowedTables [] = ALL_TABLES_LIST ∧
      ∀ (C : Collaborators) (question : String) (sess : Option String),
        "SQL Generation" ∈ (run_pipeline C question sess (some [])).trace := by
  refine ⟨rfl, rfl, rfl, ?_⟩
  intro C question sess
  rw [run_pipeline_cases]
  split <;> simp

/-- C8: a security-step rejection (rejection marker in the review, or an
unauthorized extracted table) is terminal: the stored SQL is cleared, the
caller receives the refusal content with sql = null, and neither the DB
execution stage nor the response formatting stage runs. -/
theorem C8_rejection_terminal (C : Collaborators) (question : String) (sess : Option String)
    (aOpt : Option (List String))
    (h : securityRejectionMarker (C.secResp (genContent C question)) = true ∨
        ∃ q, (stAfterGen C question sess (aOpt.getD ALL_TABLES_LIST)).sql_query = some q ∧
          q ≠ "" ∧ ∃ t, t ∈ extract_table_names q ∧ t ∉ aOpt.getD ALL_TABLES_LIST) :
    (run_pipeline C question sess aOpt).sql_query = none ∧
      (run_pipeline C question sess aOpt).response =
        (secResultOf C question sess aOpt).2.content ∧
      "DB Execution" ∉ (run_pipeline C question sess aOpt).trace ∧
      "Response Formatting" ∉ (run_pipeline C question sess aOpt).trace := by
  have hfail : (secResultOf C question sess aOpt).2.success = false := by
    apply (sqlSecurityStep_fail_iff C
      (stAfterGen C question sess (aOpt.getD ALL_TABLES_LIST)) (genContent C question)).mpr
    exact h
  have hprops := sqlSecurityStep_fail C
    (stAfterGen C question sess (aOpt.getD ALL_TABLES_LIST)) (genContent C question) hfail
  have hcne : (secResultOf C question sess aOpt).2.content ≠ "" := hprops.2
  rw [run_pipeline_cases, if_neg (by rw [hfail]; simp)]
  refine ⟨hprops.1, ?_, by simp, by simp⟩
  show (if (secResultOf C question sess aOpt).2.content = "" then DEFAULT_PIPELINE_RESPONSE
    else (secResultOf C question sess aOpt).2.content) = (secResultOf C question sess aOpt).2.content
  rw [if_neg hcne]

theorem C8_witness :
    securityRejectionMarker
        (oracleReviewReject.secResp (genContent oracleReviewReject ("q"))) = true ∧
      (run_pipeline oracleReviewReject ("q") none none).sql_query = none ∧
      "DB Execution" ∉ (run_pipeline oracleReviewReject ("q") none none).trace ∧
      "Response Formatting" ∉ (run_pipeline oracleReviewReject ("q") none none).trace :=
  ⟨by decide,
    (C8_rejection_terminal oracleReviewReject ("q") none none (Or.inl (by decide))).1,
    (C8_rejection_terminal oracleReviewReject ("q") none none (Or.inl (by decide))).2.2.1,
    (C8_rejection_terminal oracleReviewReject ("q") none none (Or.inl (by decide))).2.2.2⟩

theorem filterMap_eq_filter_map (f : String → Option String) (l : List String) :
    l.filterMap f = (l.filter (fun t => (f t).isSome)).map (fun t => (f t).getD "") := by
  induction l with
  | nil => rfl
  | cons a l ih => cases h : f a <;> simp [List.filterMap_cons, List.filter_cons, h, ih]

/-- C9 as stated is false: the table sequence follows the order of the
allowed_tables list, so two allowed_tables collections with the same
elements in different insertion orders produce different table sequences. -/
theorem C9_counterexample :
    tableLinesList ["clients", "commandes"] ≠ tableLinesList ["commandes", "clients"] := by
  decide

/-- C9 (amended): the construction is a pure function of the allowed_tables
list — deterministic across calls — and the relations sequence is
order-stable (it depends only on the set of allowed tables, in the fixed
relation-map order); but the tables sequence follows the allowed_tables
list order (the i-th emitted schema line is that of the i-th allowed table
present in TABLE_SCHEMAS), not a canonical order. -/
theorem C9_order_characterization :
    (∀ l : List String, tableLinesList l =
        (l.filter (fun t => (lookupSchema t).isSome)).map (fun t => (lookupSchema t).getD "")) ∧
    ∀ l₁ l₂ : List String, (∀ t, t ∈ l₁ ↔ t ∈ l₂) → relation_lines l₁ = relation_lines l₂ := by
  constructor
  · intro l
    exact filterMap_eq_filter_map lookupSchema l
  · intro l₁ l₂ h
    have hc : ∀ x, l₁.contains x = l₂.contains x := by
      intro x
      cases hx1 : l₁.contains x <;> cases hx2 : l₂.contains x <;> try rfl
      · exfalso
        have hm2 := (contains_iff_mem l₂ x).mp hx2
        have hm1 := (contains_iff_mem l₁ x).mpr ((h x).mpr hm2)
        rw [hx1] at hm1
        exact Bool.noConfusion hm1
      · exfalso
        have hm1 := (contains_iff_mem l₁ x).mp hx1
        have hm2 := (contains_iff_mem l₂ x).mpr ((h x).mp hm1)
        rw [hx2] at hm2
        exact Bool.noConfusion hm2
    have hfun : (fun pr : (String × String) × String =>
        l₁.contains pr.1.1 && l₁.contains pr.1.2) =
        (fun pr => l₂.contains pr.1.1 && l₂.contains pr.1.2) := by
      funext pr
      rw [hc, hc]
    simp only [relation_lines, hfun]

theorem C9_witness :
    relation_lines ["clients", "commandes"] = relation_lines ["commandes", "clients"] :=
  C9_order_characterization.2 ["clients", "commandes"] ["commandes", "clients"]
    (by intro t; simp [List.mem_cons]; tauto)
